import Mathlib

/-!
Verification of the TOFY-X1 telemetry backend (`main.py`) against its
specification.  The Python code is shallowly embedded: floats become `ℚ`,
Python `round` (banker's rounding) becomes `pyRound`, Python `int()`
truncation becomes `pyInt`, float `%` becomes `fmod`, and the random /
trigonometric samples feeding `_sim_value` become explicit rational inputs.
Store-backed endpoints are modelled as pure functions over an explicit
store state.
-/

namespace TofyX1

/-! ## Numeric primitives modelling Python builtins -/

/-- Python `round(q)`: round half to even (banker's rounding). -/
def pyRound (q : ℚ) : ℤ :=
  if q - ⌊q⌋ < 1/2 then ⌊q⌋
  else if 1/2 < q - ⌊q⌋ then ⌊q⌋ + 1
  else if ⌊q⌋ % 2 = 0 then ⌊q⌋ else ⌊q⌋ + 1

/-- Python `round(q, p)`: round to `p` decimal places. -/
def roundTo (p : ℕ) (q : ℚ) : ℚ := (pyRound (q * 10 ^ p) : ℚ) / 10 ^ p

/-- Python `int(q)`: truncation toward zero. -/
def pyInt (q : ℚ) : ℤ := if 0 ≤ q then ⌊q⌋ else ⌈q⌉

/-- Python float `x % y` for `y > 0`: result carries the sign of `y`. -/
def fmod (x y : ℚ) : ℚ := x - y * ⌊x / y⌋

/-! ## The telemetry synthesizer (`_sim_value`, `_make_telemetry_payload`) -/

/-- `_sim_value(base, amp, speed, noise)` from `main.py`:
`base + amp * sin(t*speed) + uniform(-noise, noise)`.  The sine evaluation
`sin(t*speed)` and the jitter draw `uniform(-noise, noise)` are passed in as
the explicit inputs `sinSample` and `jitter`; `speed` and `noise` only
shape those two inputs. -/
def sim_value (base amp _speed _noise : ℚ) (sinSample jitter : ℚ) : ℚ :=
  base + amp * sinSample + jitter

/-- `hue = max(0, min(220, int(220 - (surface_temp - 10) * (220 / 50))))`
from `_make_telemetry_payload`. -/
def hue (surface_temp : ℚ) : ℤ :=
  max 0 (min 220 (pyInt (220 - (surface_temp - 10) * (220 / 50))))

/-- `camo_color_hsl = f"hsl({hue}, 70%, 55%)"` from `_make_telemetry_payload`. -/
def camo_color_hsl (surface_temp : ℚ) : String :=
  "hsl(" ++ toString (hue surface_temp) ++ ", 70%, 55%)"

/-- The `danger` assignment from `_make_telemetry_payload`:
start at `"low"`, overwrite with `"high"` when `uv_index > 7 or
surface_temp > 50`, else with `"medium"` when `uv_index > 5 or
surface_temp > 40`. -/
def danger_level (uv_index surface_temp : ℚ) : String :=
  if uv_index > 7 ∨ surface_temp > 50 then "high"
  else if uv_index > 5 ∨ surface_temp > 40 then "medium"
  else "low"

/-- The non-deterministic inputs consumed by one `_make_telemetry_payload`
call: for each `_sim_value` call site its sine sample `s_*` and jitter
`j_*`, the separate `datetime.utcnow().timestamp()` reads feeding `yaw`
and `sun_dir`, and the `isoformat()` string of the payload timestamp. -/
structure SimInputs where
  iso_now : String
  s_ambient : ℚ
  j_ambient : ℚ
  s_surface : ℚ
  j_surface : ℚ
  s_uv : ℚ
  j_uv : ℚ
  s_ir : ℚ
  j_ir : ℚ
  s_lux : ℚ
  j_lux : ℚ
  s_batt : ℚ
  j_batt : ℚ
  s_pitch : ℚ
  j_pitch : ℚ
  s_roll : ℚ
  j_roll : ℚ
  ts_yaw : ℚ
  s_lat : ℚ
  j_lat : ℚ
  s_lon : ℚ
  j_lon : ℚ
  ts_sun : ℚ
  s_speed : ℚ
  j_speed : ℚ
  s_panel : ℚ
  j_panel : ℚ

/-- The dictionary built by `_make_telemetry_payload`, flattened into one
record (`environment.ambient_temp_c` becomes `ambient_temp_c`, etc.). -/
structure TelemetryPayload where
  timestamp : String
  ambient_temp_c : ℚ
  surface_temp_c : ℚ
  uv_index : ℚ
  ir_mw_m2 : ℚ
  light_lux : ℚ
  battery_pct : ℚ
  battery_voltage : ℚ
  pitch : ℚ
  roll : ℚ
  yaw : ℚ
  lat : ℚ
  lon : ℚ
  speed_mps : ℚ
  heading : ℚ
  target_azimuth : ℚ
  panel_azimuth : ℚ
  color_hsl : String
  danger_level : String

/-- `_make_telemetry_payload` from `main.py`, line for line. -/
def make_telemetry_payload (i : SimInputs) : TelemetryPayload :=
  let ambient_temp := roundTo 2 (sim_value 22 6 0.06 0.5 i.s_ambient i.j_ambient)
  let surface_temp := roundTo 2 (ambient_temp + sim_value 5 3 0.08 0.3 i.s_surface i.j_surface)
  let uv_index := max 0 (roundTo 2 (sim_value 4 3 0.05 0.4 i.s_uv i.j_uv))
  let ir_radiation := max 0 (roundTo 2 (sim_value 250 120 0.03 5 i.s_ir i.j_ir))
  let light_lux := max 0 (roundTo 2 (sim_value 20000 15000 0.04 500 i.s_lux i.j_lux))
  let battery_pct := min 100 (max 0 (roundTo 1 (sim_value 78 8 0.01 1 i.s_batt i.j_batt)))
  let battery_voltage := roundTo 2 (3 + battery_pct / 100 * 1.2)
  let pitch := roundTo 2 (sim_value 2 10 0.02 0.8 i.s_pitch i.j_pitch)
  let roll := roundTo 2 (sim_value 1 12 0.018 0.8 i.s_roll i.j_roll)
  let yaw := fmod (i.ts_yaw * 12) 360
  let lat := 46.0569 + sim_value 0 0.0008 0.002 0.0001 i.s_lat i.j_lat
  let lon := 14.5058 + sim_value 0 0.0008 0.002 0.0001 i.s_lon i.j_lon
  let sun_dir := fmod (i.ts_sun * 6) 360
  { timestamp := i.iso_now ++ "Z"
    ambient_temp_c := ambient_temp
    surface_temp_c := surface_temp
    uv_index := uv_index
    ir_mw_m2 := ir_radiation
    light_lux := light_lux
    battery_pct := battery_pct
    battery_voltage := battery_voltage
    pitch := pitch
    roll := roll
    yaw := roundTo 2 yaw
    lat := roundTo 6 lat
    lon := roundTo 6 lon
    speed_mps := roundTo 2 (max 0 (sim_value 0.8 0.6 0.07 0.2 i.s_speed i.j_speed))
    heading := roundTo 2 yaw
    target_azimuth := roundTo 2 sun_dir
    panel_azimuth := roundTo 2 (sun_dir + sim_value 0 5 0.2 1.5 i.s_panel i.j_panel)
    color_hsl := camo_color_hsl surface_temp
    danger_level := danger_level uv_index surface_temp }

/-- A `SimInputs` record with every numeric field `0` except `ts_yaw`,
chosen so that `ts_yaw * 12 = 359.996`. -/
def yawEdgeInputs : SimInputs :=
  { iso_now := ""
    s_ambient := 0, j_ambient := 0, s_surface := 0, j_surface := 0
    s_uv := 0, j_uv := 0, s_ir := 0, j_ir := 0, s_lux := 0, j_lux := 0
    s_batt := 0, j_batt := 0, s_pitch := 0, j_pitch := 0
    s_roll := 0, j_roll := 0
    ts_yaw := 89999/3000
    s_lat := 0, j_lat := 0, s_lon := 0, j_lon := 0
    ts_sun := 0, s_speed := 0, j_speed := 0, s_panel := 0, j_panel := 0 }

/-! ## The document store and the session-gated recorder

Mongo documents are schemaless; each endpoint below touches only a few
fields of a stored telemetry document, so each query layer is modelled on
the projection of the stored documents it actually reads: `StoredDoc` is
the `{_id, created_at}` projection driving filtering, sorting and limits;
`CsvDoc` is the per-row string extraction of `export_csv`; `MetricDoc` is
the six tracked numeric fields of `metrics_summary`. -/

/-- A document of the `session` collection. -/
structure Session where
  active : Bool
  started_at : ℤ
  ended_at : Option ℤ
  note : String
deriving DecidableEq

/-- The `{_id, created_at}` projection of a stored telemetry document:
`_id` is the store-assigned identifier, `created_at` the server-assigned
timestamp (in seconds). -/
structure StoredDoc where
  id : ℕ
  created_at : ℤ
deriving DecidableEq

/-- The external store as the endpoints see it: whether `db` is configured
(not `None`), whether a read (`find`/`find_one`) raises, whether a write
(`update_many`/`insert_one`/`create_document`) raises, and the two
collections. -/
structure Store where
  configured : Bool
  readFails : Bool
  writeFails : Bool
  sessions : List Session
  telemetry : List StoredDoc

/-- Endpoint outcome: `badRequest` is the structured 400 body returned when
no store is configured; `raised` is an uncaught store exception propagating
out of the handler; `ok` is a successful response. -/
inductive Outcome (α : Type) where
  | badRequest : Outcome α
  | raised : Outcome α
  | ok : α → Outcome α
deriving DecidableEq

/-- `_active_session` from `main.py`: `None` when `db` is falsy, `None`
when the `find_one` raises (`except Exception: return None`), else the
first session document with `active = True`. -/
def active_session (st : Store) : Option Session :=
  if !st.configured then none
  else if st.readFails then none
  else st.sessions.find? (·.active)

/-- `GET /api/telemetry`: synthesize the payload, then persist it when a
session is active; `create_document` failures are swallowed
(`except Exception: pass`).  The payload `p` is the synthesized snapshot;
`now` is the server-assigned `created_at` of the stored copy, whose
`{_id, created_at}` projection is appended to the collection. -/
def telemetry (st : Store) (p : TelemetryPayload) (now : ℤ) : TelemetryPayload × Store :=
  match active_session st with
  | none => (p, st)
  | some _ =>
    if st.writeFails then (p, st)
    else (p, { st with telemetry := st.telemetry ++ [⟨st.telemetry.length, now⟩] })

/-- The `update_many({"active": True}, {"$set": {"active": False,
"ended_at": utcnow()}})` update applied to one session document. -/
def deactivate (now : ℤ) (s : Session) : Session :=
  if s.active then { s with active := false, ended_at := some now } else s

/-- The session-collection transform performed by a successful
`start_session`: deactivate every active session, then insert one new
active session. -/
def start_session_sessions (now : ℤ) (l : List Session) : List Session :=
  l.map (deactivate now) ++ [⟨true, now, none, "TOFY-X1 recording session"⟩]

/-- `POST /api/session/start` from `main.py`: 400 when no store is
configured; the `update_many`/`insert_one` store errors are not caught. -/
def start_session (st : Store) (now : ℤ) : Outcome Store :=
  if !st.configured then Outcome.badRequest
  else if st.writeFails then Outcome.raised
  else Outcome.ok { st with sessions := start_session_sessions now st.sessions }

/-- `POST /api/session/stop` from `main.py`: 400 when no store is
configured; the `update_many` store error is not caught. -/
def stop_session (st : Store) (now : ℤ) : Outcome Store :=
  if !st.configured then Outcome.badRequest
  else if st.writeFails then Outcome.raised
  else Outcome.ok { st with sessions := st.sessions.map (deactivate now) }

/-- Number of active documents in the `session` collection. -/
def countActive (l : List Session) : ℕ := (l.filter (·.active)).length

/-! ## The history / export / summary query layer -/

/-- Mongo's descending `sort("created_at", -1)` comparison. -/
def histDesc : StoredDoc → StoredDoc → Prop := fun a b => b.created_at ≤ a.created_at

instance : DecidableRel histDesc := fun a b =>
  (inferInstance : Decidable (b.created_at ≤ a.created_at))

instance : IsTotal StoredDoc histDesc :=
  ⟨fun a b => le_total b.created_at a.created_at⟩

instance : IsTrans StoredDoc histDesc :=
  ⟨fun _ _ _ hab hbc => le_trans hbc hab⟩

/-- The query filter of `telemetry_history` / `export_csv`: with a
`minutes` window, `{"created_at": {"$gte": now - timedelta(minutes=m)}}`;
without, the unrestricted query `{}`. -/
def history_filter (docs : List StoredDoc) (now : ℤ) (minutes : Option ℤ) : List StoredDoc :=
  match minutes with
  | none => docs
  | some m => docs.filter (fun d => decide (now - 60 * m ≤ d.created_at))

/-- The document list returned by `telemetry_history`: filter, sort
descending by `created_at`, take `limit`, then `reversed(docs)`. -/
def history_docs (docs : List StoredDoc) (now : ℤ) (limit : ℕ) (minutes : Option ℤ) :
    List StoredDoc :=
  (((history_filter docs now minutes).insertionSort histDesc).take limit).reverse

/-- `GET /api/telemetry/history` from `main.py`: 400 when no store is
configured; the `find` store error is not caught. -/
def telemetry_history (st : Store) (now : ℤ) (limit : ℕ) (minutes : Option ℤ) :
    Outcome (List StoredDoc) :=
  if !st.configured then Outcome.badRequest
  else if st.readFails then Outcome.raised
  else Outcome.ok (history_docs st.telemetry now limit minutes)

/-- `GET /api/export/csv` from `main.py`, up to the row rendering: same
query as the history endpoint (the `generate()` streamer then walks
`reversed(docs)`); 400 when no store is configured; the `find` store error
is not caught. -/
def export_csv (st : Store) (now : ℤ) (limit : ℕ) (minutes : Option ℤ) :
    Outcome (List StoredDoc) :=
  if !st.configured then Outcome.badRequest
  else if st.readFails then Outcome.raised
  else Outcome.ok (((history_filter st.telemetry now minutes).insertionSort histDesc).take limit)

/-- The per-row string extraction of `export_csv`: each field holds the
`str(...)` rendering of the stored value when the nested lookup succeeds,
`none` when the field is missing (the row then uses `""`). -/
structure CsvDoc where
  timestamp : Option String
  ambient_temp_c : Option String
  surface_temp_c : Option String
  uv_index : Option String
  ir_mw_m2 : Option String
  light_lux : Option String
  battery_pct : Option String
  battery_voltage : Option String
  pitch : Option String
  roll : Option String
  yaw : Option String
  lat : Option String
  lon : Option String
  speed_mps : Option String
  heading : Option String
  target_azimuth : Option String
  panel_azimuth : Option String
  color_hsl : Option String
  danger_level : Option String
  created_at : Option String
deriving DecidableEq

/-- The `headers` list of `export_csv`. -/
def csvHeaders : List String :=
  ["timestamp",
   "ambient_temp_c", "surface_temp_c", "uv_index", "ir_mw_m2", "light_lux",
   "battery_pct", "battery_voltage",
   "pitch", "roll", "yaw",
   "lat", "lon", "speed_mps", "heading",
   "target_azimuth", "panel_azimuth",
   "camo_color_hsl",
   "danger_level",
   "created_at"]

/-- The `row(d)` helper of `export_csv`: one cell per header, missing
fields defaulting to the empty string. -/
def csvRow (d : CsvDoc) : List String :=
  [d.timestamp.getD "",
   d.ambient_temp_c.getD "", d.surface_temp_c.getD "", d.uv_index.getD "",
   d.ir_mw_m2.getD "", d.light_lux.getD "",
   d.battery_pct.getD "", d.battery_voltage.getD "",
   d.pitch.getD "", d.roll.getD "", d.yaw.getD "",
   d.lat.getD "", d.lon.getD "", d.speed_mps.getD "", d.heading.getD "",
   d.target_azimuth.getD "", d.panel_azimuth.getD "",
   d.color_hsl.getD "",
   d.danger_level.getD "",
   d.created_at.getD ""]

/-- The `generate()` streamer of `export_csv`: one header line, then one
line per document of the (descending) query result, walked in reverse;
every line is the comma-join of its cells. -/
def export_csv_lines (docs : List CsvDoc) : List String :=
  String.intercalate "," csvHeaders :: docs.reverse.map (fun d => String.intercalate "," (csvRow d))

/-- A stored document with every CSV-relevant field missing. -/
def emptyCsvDoc : CsvDoc :=
  ⟨none, none, none, none, none, none, none, none, none, none,
   none, none, none, none, none, none, none, none, none, none⟩

/-- A stored document as the recorder itself writes them: the only field
that matters here is the synthesized `camouflage.color_hsl`, which
contains commas. -/
def hslCsvDoc : CsvDoc :=
  { emptyCsvDoc with color_hsl := some "hsl(220, 70%, 55%)" }

/-- The six tracked numeric fields of one stored document, as
`metrics_summary` sees them: `some v` when the nested lookup succeeds and
`float(...)` parses, `none` otherwise (missing or unparseable). -/
structure MetricDoc where
  ambient_temp_c : Option ℚ
  surface_temp_c : Option ℚ
  uv_index : Option ℚ
  light_lux : Option ℚ
  battery_pct : Option ℚ
  speed_mps : Option ℚ
  created_at : ℤ
deriving DecidableEq

/-- One `{min, max, avg}` triple of the summary; `none` is JSON `null`. -/
structure Stats where
  min : Option ℚ
  max : Option ℚ
  avg : Option ℚ
deriving DecidableEq

/-- The `agg(path)` helper of `metrics_summary` applied to the collected
parseable values: all-`null` on no values, else Python `min`/`max`
(left folds) and `sum(vals)/len(vals)`. -/
def agg (vals : List ℚ) : Stats :=
  match vals with
  | [] => ⟨none, none, none⟩
  | x :: xs => ⟨some (xs.foldl min x), some (xs.foldl max x),
      some ((x :: xs).sum / ((x :: xs).length : ℚ))⟩

/-- The six tracked fields of the summary. -/
inductive MetricField where
  | ambient_temp_c | surface_temp_c | uv_index | light_lux | battery_pct | speed_mps
deriving DecidableEq

/-- Field lookup on a stored document. -/
def getMetric (f : MetricField) (d : MetricDoc) : Option ℚ :=
  match f with
  | .ambient_temp_c => d.ambient_temp_c
  | .surface_temp_c => d.surface_temp_c
  | .uv_index => d.uv_index
  | .light_lux => d.light_lux
  | .battery_pct => d.battery_pct
  | .speed_mps => d.speed_mps

/-- The `summary` dictionary of `metrics_summary`. -/
structure Summary where
  ambient_temp_c : Stats
  surface_temp_c : Stats
  uv_index : Stats
  light_lux : Stats
  battery_pct : Stats
  speed_mps : Stats
deriving DecidableEq

/-- Field lookup on the summary. -/
def summaryStats (s : Summary) (f : MetricField) : Stats :=
  match f with
  | .ambient_temp_c => s.ambient_temp_c
  | .surface_temp_c => s.surface_temp_c
  | .uv_index => s.uv_index
  | .light_lux => s.light_lux
  | .battery_pct => s.battery_pct
  | .speed_mps => s.speed_mps

/-- Response of `GET /api/metrics/summary`; `summary = none` models the
empty dictionary `{}` returned when the window holds no documents. -/
structure MetricsResult where
  items : ℕ
  summary : Option Summary
deriving DecidableEq

/-- `metrics_summary` from `main.py` (after the `db` check): query all
documents with `created_at >= now - timedelta(minutes=minutes)` — with no
limit — and aggregate each tracked field over its parseable values. -/
def metrics_summary (docs : List MetricDoc) (now : ℤ) (minutes : ℤ) : MetricsResult :=
  let ds := docs.filter (fun d => decide (now - 60 * minutes ≤ d.created_at))
  if ds.isEmpty then ⟨0, none⟩
  else ⟨ds.length, some
    { ambient_temp_c := agg (ds.filterMap (fun d => d.ambient_temp_c))
      surface_temp_c := agg (ds.filterMap (fun d => d.surface_temp_c))
      uv_index := agg (ds.filterMap (fun d => d.uv_index))
      light_lux := agg (ds.filterMap (fun d => d.light_lux))
      battery_pct := agg (ds.filterMap (fun d => d.battery_pct))
      speed_mps := agg (ds.filterMap (fun d => d.speed_mps)) }⟩

/-- A concrete synthesized payload (all sim inputs zero), for witnesses. -/
def samplePayload : TelemetryPayload :=
  ⟨"", 0, 0, 0, 0, 0, 0, 0, 0, 0, 0, 0, 0, 0, 0, 0, 0, "", ""⟩

/-! ## Helper lemmas about the numeric primitives -/

/-- `⌈q⌉` expressed through `⌊·⌋`, for evaluating `pyInt` on negatives. -/
lemma ceil_eq_neg_floor (q : ℚ) : ⌈q⌉ = -⌊-q⌋ := by rw [Int.floor_neg, neg_neg]

lemma pyRound_bounds (q : ℚ) : ⌊q⌋ ≤ pyRound q ∧ pyRound q ≤ ⌊q⌋ + 1 := by
  unfold pyRound
  split_ifs <;> omega

lemma roundTo_nonneg (p : ℕ) (q : ℚ) (h : 0 ≤ q) : 0 ≤ roundTo p q := by
  unfold roundTo
  have h1 : (0 : ℤ) ≤ ⌊q * 10 ^ p⌋ := Int.floor_nonneg.mpr (by positivity)
  have h2 := (pyRound_bounds (q * 10 ^ p)).1
  have h3 : (0 : ℤ) ≤ pyRound (q * 10 ^ p) := le_trans h1 h2
  exact div_nonneg (by exact_mod_cast h3) (by positivity)

lemma round2_le_360 (q : ℚ) (h : q < 360) : roundTo 2 q ≤ 360 := by
  unfold roundTo
  have h0 : q * 10 ^ 2 < ((36000 : ℤ) : ℚ) := by push_cast; nlinarith
  have h1 : ⌊q * 10 ^ 2⌋ < 36000 := Int.floor_lt.mpr h0
  have h2 := (pyRound_bounds (q * 10 ^ 2)).2
  have h3 : pyRound (q * 10 ^ 2) ≤ 36000 := by omega
  rw [div_le_iff₀ (by norm_num)]
  calc ((pyRound (q * 10 ^ 2) : ℚ)) ≤ ((36000 : ℤ) : ℚ) := by exact_mod_cast h3
    _ = 360 * 10 ^ 2 := by norm_num

lemma fmod_nonneg (x y : ℚ) (hy : 0 < y) : 0 ≤ fmod x y := by
  have h := Int.floor_le (x / y)
  have hx : y * (x / y) = x := by field_simp
  have h2 : y * ((⌊x / y⌋ : ℚ)) ≤ y * (x / y) := mul_le_mul_of_nonneg_left h hy.le
  unfold fmod
  linarith [hx ▸ h2]

lemma fmod_lt (x y : ℚ) (hy : 0 < y) : fmod x y < y := by
  have h := Int.lt_floor_add_one (x / y)
  have hx : y * (x / y) = x := by field_simp
  have h2 : y * (x / y) < y * ((⌊x / y⌋ : ℚ) + 1) := mul_lt_mul_of_pos_left h hy
  rw [mul_add, mul_one, hx] at h2
  unfold fmod
  linarith

/-! ## Claim theorems about the synthesizer -/

/-- C2: `danger_level` is computed with the high check first: it equals
`"high"` iff `uv_index > 7` or `surface_temp_c > 50`; otherwise it equals
`"medium"` iff `uv_index > 5` or `surface_temp_c > 40`; otherwise it is
`"low"`; in particular it is `"high"` whenever `uv_index > 7`, regardless
of temperature. -/
theorem danger_level_precedence (uv st : ℚ) :
    (danger_level uv st = "high" ↔ (uv > 7 ∨ st > 50)) ∧
    (¬(uv > 7 ∨ st > 50) → (danger_level uv st = "medium" ↔ (uv > 5 ∨ st > 40))) ∧
    (¬(uv > 7 ∨ st > 50) → ¬(uv > 5 ∨ st > 40) → danger_level uv st = "low") ∧
    (uv > 7 → danger_level uv st = "high") := by
  unfold danger_level
  by_cases h1 : uv > 7 ∨ st > 50
  · rw [if_pos h1]
    exact ⟨⟨fun _ => h1, fun _ => rfl⟩, fun hn => absurd h1 hn,
      fun hn _ => absurd h1 hn, fun _ => rfl⟩
  · rw [if_neg h1]
    by_cases h2 : uv > 5 ∨ st > 40
    · rw [if_pos h2]
      exact ⟨iff_of_false (by decide) h1, fun _ => ⟨fun _ => h2, fun _ => rfl⟩,
        fun _ hn2 => absurd h2 hn2, fun h7 => absurd (Or.inl h7) h1⟩
    · rw [if_neg h2]
      exact ⟨iff_of_false (by decide) h1, fun _ => iff_of_false (by decide) h2,
        fun _ _ => rfl, fun h7 => absurd (Or.inl h7) h1⟩

/-- Witness for C2 at concrete inputs. -/
theorem danger_level_precedence_witness :
    danger_level 8 60 = "high" ∧ danger_level 6 30 = "medium" :=
  ⟨(danger_level_precedence 8 60).1.mpr (Or.inl (by norm_num)),
   ((danger_level_precedence 6 30).2.1 (by norm_num)).mpr (Or.inl (by norm_num))⟩

/-- C3 counterexample: at `surface_temp_c = 10.1` the code computes
`hue = int(219.56) = 219` (truncation), while the claimed formula
`clamp(0, 220, round(220 - (t - 10) * 220/50))` gives `220`. -/
theorem hue_round_counterexample :
    hue (101/10) = 219 ∧
    max 0 (min 220 (pyRound (220 - ((101 : ℚ)/10 - 10) * (220 / 50)))) = 220 := by
  constructor
  · norm_num [hue, pyInt, Rat.floor_def]
  · norm_num [pyRound, Rat.floor_def]

/-- C3 (amended): the camouflage hue equals
`clamp(0, 220, trunc(220 - (t - 10) * 220/50))` — Python `int()` truncation
toward zero, not rounding — and `color_hsl` is the string
`"hsl(<hue>, 70%, 55%)"`; hue always lies in `[0, 220]`, and in particular
is `220` at `t = 10`, `0` at `t = 60`, and clamped to `0` (not negative)
at `t = 85`. -/
theorem hue_spec (t : ℚ) :
    hue t = max 0 (min 220 (pyInt (220 - (t - 10) * (220 / 50)))) ∧
    0 ≤ hue t ∧ hue t ≤ 220 ∧
    camo_color_hsl t = "hsl(" ++ toString (hue t) ++ ", 70%, 55%)" ∧
    hue 10 = 220 ∧ hue 60 = 0 ∧ hue 85 = 0 := by
  refine ⟨rfl, le_max_left _ _, max_le (by norm_num) (min_le_left _ _), rfl,
    by norm_num [hue, pyInt, Rat.floor_def],
    by norm_num [hue, pyInt, Rat.floor_def],
    by norm_num [hue, pyInt, ceil_eq_neg_floor, Rat.floor_def]⟩

/-- C1 counterexample: with the yaw clock read at `ts_yaw = 89999/3000`
seconds, `(ts_yaw * 12) % 360 = 359.996`, and `round(359.996, 2) = 360.0`,
so the stored `yaw` equals `360` and does not lie in the half-open
interval `[0, 360)`. -/
theorem telemetry_yaw_counterexample :
    (make_telemetry_payload yawEdgeInputs).yaw = 360 ∧
    ¬((make_telemetry_payload yawEdgeInputs).yaw < 360) := by
  have h : (make_telemetry_payload yawEdgeInputs).yaw = 360 := by
    show roundTo 2 (fmod ((89999/3000 : ℚ) * 12) 360) = 360
    norm_num [fmod, roundTo, pyRound, Rat.floor_def]
  exact ⟨h, by rw [h]; exact lt_irrefl 360⟩

/-- C1 (amended): for every synthesized snapshot, regardless of time and
random jitter, `battery_pct` lies in `[0, 100]`, `danger_level` is one of
`low`, `medium`, `high`, and the rounded `yaw`, `heading` and
`target_azimuth` each lie in the closed interval `[0, 360]` (the value
`360` itself is reachable, by rounding up from just below `360`, so the
half-open interval `[0, 360)` of the original claim does not hold). -/
theorem telemetry_invariants (i : SimInputs) :
    (0 ≤ (make_telemetry_payload i).battery_pct ∧
      (make_telemetry_payload i).battery_pct ≤ 100) ∧
    ((make_telemetry_payload i).danger_level = "low" ∨
      (make_telemetry_payload i).danger_level = "medium" ∨
      (make_telemetry_payload i).danger_level = "high") ∧
    (0 ≤ (make_telemetry_payload i).yaw ∧ (make_telemetry_payload i).yaw ≤ 360) ∧
    (0 ≤ (make_telemetry_payload i).heading ∧ (make_telemetry_payload i).heading ≤ 360) ∧
    (0 ≤ (make_telemetry_payload i).target_azimuth ∧
      (make_telemetry_payload i).target_azimuth ≤ 360) := by
  simp only [make_telemetry_payload]
  refine ⟨⟨le_min (by norm_num) (le_max_left _ _), min_le_left _ _⟩, ?_, ?_, ?_, ?_⟩
  · unfold danger_level
    split_ifs with h1 h2
    · exact Or.inr (Or.inr rfl)
    · exact Or.inr (Or.inl rfl)
    · exact Or.inl rfl
  · exact ⟨roundTo_nonneg 2 _ (fmod_nonneg _ _ (by norm_num)),
      round2_le_360 _ (fmod_lt _ _ (by norm_num))⟩
  · exact ⟨roundTo_nonneg 2 _ (fmod_nonneg _ _ (by norm_num)),
      round2_le_360 _ (fmod_lt _ _ (by norm_num))⟩
  · exact ⟨roundTo_nonneg 2 _ (fmod_nonneg _ _ (by norm_num)),
      round2_le_360 _ (fmod_lt _ _ (by norm_num))⟩

/-! ## Claim theorems about the recorder and query layer -/

/-- After the `update_many` deactivation, no session is active. -/
lemma deactivate_active (now : ℤ) (s : Session) : (deactivate now s).active = false := by
  unfold deactivate
  split_ifs with h
  · rfl
  · exact Bool.not_eq_true _ |>.mp h

/-- C7: the telemetry operation always returns the synthesized payload: a
store read error during the active-session lookup is treated as no active
session (and nothing is persisted), and a persistence error is swallowed,
leaving the store unchanged but the response intact. -/
theorem telemetry_fail_open (st : Store) (p : TelemetryPayload) (now : ℤ) :
    (telemetry st p now).1 = p ∧
    (st.readFails = true → active_session st = none ∧ telemetry st p now = (p, st)) ∧
    (st.writeFails = true → telemetry st p now = (p, st)) := by
  refine ⟨?_, ?_, ?_⟩
  · cases h : active_session st with
    | none => simp [telemetry, h]
    | some s =>
      by_cases hw : st.writeFails <;> simp [telemetry, h, hw]
  · intro hr
    have ha : active_session st = none := by
      unfold active_session
      by_cases hc : st.configured
      · simp [hc, hr]
      · simp [hc]
    exact ⟨ha, by simp [telemetry, ha]⟩
  · intro hw
    cases h : active_session st with
    | none => simp [telemetry, h]
    | some s => simp [telemetry, h, hw]

/-- Witness for C7: a configured store whose reads fail still serves the
payload and is left untouched. -/
theorem telemetry_fail_open_witness :
    (⟨true, true, false, [], []⟩ : Store).readFails = true ∧
    telemetry ⟨true, true, false, [], []⟩ samplePayload 0 =
      (samplePayload, ⟨true, true, false, [], []⟩) :=
  ⟨rfl, ((telemetry_fail_open ⟨true, true, false, [], []⟩ samplePayload 0).2.1 rfl).2⟩

/-- C8: a successful `start_session` leaves exactly one active session
whatever the prior state: it deactivates every session (stamping
`ended_at` on those that were active) and appends one new active session;
in particular two consecutive `start_session` calls from an empty
collection leave exactly one active session, the first one deactivated
with its `ended_at` set. -/
theorem start_session_single_active (l : List Session) (now t1 t2 : ℤ) :
    countActive (start_session_sessions now l) = 1 ∧
    (∀ s ∈ l, (deactivate now s).active = false ∧
      (s.active = true → (deactivate now s).ended_at = some now)) ∧
    start_session_sessions t2 (start_session_sessions t1 []) =
      [⟨false, t1, some t2, "TOFY-X1 recording session"⟩,
       ⟨true, t2, none, "TOFY-X1 recording session"⟩] ∧
    countActive (start_session_sessions t2 (start_session_sessions t1 [])) = 1 ∧
    (∀ st st2, start_session st now = Outcome.ok st2 →
      st2.sessions = start_session_sessions now st.sessions) := by
  refine ⟨?_, ?_, ?_, ?_, ?_⟩
  · unfold countActive start_session_sessions
    rw [List.filter_append]
    have h1 : (l.map (deactivate now)).filter (fun s => s.active) = [] := by
      rw [List.filter_eq_nil_iff]
      intro a ha
      rcases List.mem_map.mp ha with ⟨s, _, rfl⟩
      simp [deactivate_active]
    rw [h1]
    rfl
  · intro s hs
    refine ⟨deactivate_active now s, fun ha => ?_⟩
    simp [deactivate, ha]
  · rfl
  · rfl
  · intro st st2 h
    unfold start_session at h
    split_ifs at h with h1 h2
    injection h with h3
    rw [← h3]

/-- Witness for C8 at a concrete one-session store. -/
theorem start_session_single_active_witness :
    countActive (start_session_sessions 9 [⟨true, 5, none, "n"⟩]) = 1 ∧
    (deactivate 9 ⟨true, 5, none, "n"⟩).ended_at = some 9 :=
  ⟨(start_session_single_active [⟨true, 5, none, "n"⟩] 9 0 0).1,
   ((start_session_single_active [⟨true, 5, none, "n"⟩] 9 0 0).2.1
      ⟨true, 5, none, "n"⟩ (List.mem_singleton_self _)).2 rfl⟩

/-- C4: the history result is the `limit` most recent documents of the
window, in ascending chronological order: it has `min limit
(window size)` documents, is sorted ascending by `created_at`, draws only
from the filtered window, partitions the window together with the dropped
documents, every dropped document being no newer than every returned one;
and concretely, `limit = 2` over 5 stored documents returns exactly the 2
most recent, oldest of the two first. -/
theorem telemetry_history_spec (docs : List StoredDoc) (now : ℤ) (limit : ℕ)
    (minutes : Option ℤ) :
    (history_docs docs now limit minutes).length =
      min limit (history_filter docs now minutes).length ∧
    List.Sorted (fun a b : StoredDoc => a.created_at ≤ b.created_at)
      (history_docs docs now limit minutes) ∧
    (∀ d ∈ history_docs docs now limit minutes, d ∈ history_filter docs now minutes) ∧
    List.Perm
      ((history_docs docs now limit minutes).reverse ++
        ((history_filter docs now minutes).insertionSort histDesc).drop limit)
      (history_filter docs now minutes) ∧
    (∀ x ∈ history_docs docs now limit minutes,
      ∀ y ∈ ((history_filter docs now minutes).insertionSort histDesc).drop limit,
        y.created_at ≤ x.created_at) ∧
    history_docs [⟨1, 3⟩, ⟨2, 1⟩, ⟨3, 5⟩, ⟨4, 2⟩, ⟨5, 4⟩] 0 2 none = [⟨5, 4⟩, ⟨3, 5⟩] := by
  have hs := List.sorted_insertionSort histDesc (history_filter docs now minutes)
  refine ⟨?_, ?_, ?_, ?_, ?_, by decide⟩
  · simp [history_docs]
  · exact List.pairwise_reverse.mpr (hs.sublist (List.take_sublist _ _))
  · intro d hd
    have h1 : d ∈ ((history_filter docs now minutes).insertionSort histDesc).take limit :=
      List.mem_reverse.mp hd
    exact (List.mem_insertionSort histDesc).mp (List.take_subset _ _ h1)
  · unfold history_docs
    rw [List.reverse_reverse, List.take_append_drop]
    exact List.perm_insertionSort histDesc _
  · intro x hx y hy
    rw [← List.take_append_drop limit
      ((history_filter docs now minutes).insertionSort histDesc)] at hs
    exact (List.pairwise_append.mp hs).2.2 x (by simpa [history_docs] using hx) y hy

/-- Witness for C4 at the concrete 5-document store. -/
theorem telemetry_history_spec_witness :
    (⟨5, 4⟩ : StoredDoc) ∈
      history_docs [⟨1, 3⟩, ⟨2, 1⟩, ⟨3, 5⟩, ⟨4, 2⟩, ⟨5, 4⟩] 0 2 none ∧
    (⟨1, 3⟩ : StoredDoc) ∈
      (((history_filter [⟨1, 3⟩, ⟨2, 1⟩, ⟨3, 5⟩, ⟨4, 2⟩, ⟨5, 4⟩] 0 none).insertionSort
        histDesc).drop 2) ∧
    (⟨1, 3⟩ : StoredDoc).created_at ≤ (⟨5, 4⟩ : StoredDoc).created_at :=
  ⟨by decide, by decide,
   (telemetry_history_spec [⟨1, 3⟩, ⟨2, 1⟩, ⟨3, 5⟩, ⟨4, 2⟩, ⟨5, 4⟩] 0 2 none).2.2.2.2.1
     ⟨5, 4⟩ (by decide) ⟨1, 3⟩ (by decide)⟩

/-- C9: on a configured store whose operations fail, `start_session`,
`stop_session`, `telemetry_history` and `export_csv` let the store error
propagate out of the handler (neither a structured error body nor an empty
result), while the telemetry-serving path still returns the payload. -/
theorem store_errors_propagate (st : Store) (now : ℤ) (limit : ℕ)
    (minutes : Option ℤ) (p : TelemetryPayload) :
    (st.configured = true → st.writeFails = true →
      start_session st now = Outcome.raised ∧ stop_session st now = Outcome.raised) ∧
    (st.configured = true → st.readFails = true →
      telemetry_history st now limit minutes = Outcome.raised ∧
      export_csv st now limit minutes = Outcome.raised) ∧
    (telemetry st p now).1 = p := by
  refine ⟨fun hc hw => ⟨?_, ?_⟩, fun hc hr => ⟨?_, ?_⟩, ?_⟩
  · simp [start_session, hc, hw]
  · simp [stop_session, hc, hw]
  · simp [telemetry_history, hc, hr]
  · simp [export_csv, hc, hr]
  · cases h : active_session st with
    | none => simp [telemetry, h]
    | some s =>
      by_cases hw : st.writeFails <;> simp [telemetry, h, hw]

/-- Witness for C9: a configured store where both reads and writes fail. -/
theorem store_errors_propagate_witness :
    (⟨true, true, true, [], []⟩ : Store).configured = true ∧
    (⟨true, true, true, [], []⟩ : Store).writeFails = true ∧
    (⟨true, true, true, [], []⟩ : Store).readFails = true ∧
    start_session ⟨true, true, true, [], []⟩ 0 = Outcome.raised ∧
    telemetry_history ⟨true, true, true, [], []⟩ 0 300 none = Outcome.raised :=
  ⟨rfl, rfl, rfl,
   ((store_errors_propagate ⟨true, true, true, [], []⟩ 0 300 none samplePayload).1 rfl rfl).1,
   ((store_errors_propagate ⟨true, true, true, [], []⟩ 0 300 none samplePayload).2.1 rfl rfl).1⟩

/-- C5 counterexample: the CSV header has 20 columns, not 19; and a
document carrying a synthesizer-produced `color_hsl` value yields a row
whose `color_hsl` cell contains internal commas. -/
theorem export_csv_counterexample :
    csvHeaders.length = 20 ∧ ¬(csvHeaders.length = 19) ∧
    (csvRow hslCsvDoc)[17]? = some "hsl(220, 70%, 55%)" ∧
    (∃ cell ∈ csvRow hslCsvDoc, ',' ∈ cell.data) := by
  refine ⟨rfl, by decide, rfl, "hsl(220, 70%, 55%)", by decide, by decide⟩

/-- C5 (amended): the export output is exactly one header line with a
fixed 20-column header (`timestamp` first, `created_at` last) followed by
exactly one line per returned document, each line the comma-join of its
20 extracted cells, missing nested fields defaulting to the empty string;
cells may themselves contain commas (the synthesized `color_hsl` does). -/
theorem export_csv_lines_spec (docs : List CsvDoc) :
    (export_csv_lines docs).length = docs.length + 1 ∧
    (export_csv_lines docs).head? = some (String.intercalate "," csvHeaders) ∧
    csvHeaders.length = 20 ∧
    csvHeaders.head? = some "timestamp" ∧
    csvHeaders.getLast? = some "created_at" ∧
    (∀ d ∈ docs, String.intercalate "," (csvRow d) ∈ (export_csv_lines docs).tail) ∧
    (∀ d, (csvRow d).length = 20) ∧
    csvRow emptyCsvDoc = List.replicate 20 "" := by
  refine ⟨by simp [export_csv_lines], rfl, rfl, rfl, rfl, ?_, fun d => rfl, rfl⟩
  intro d hd
  exact List.mem_map.mpr ⟨d, List.mem_reverse.mpr hd, rfl⟩

/-- Witness for C5 at a one-document store. -/
theorem export_csv_lines_spec_witness :
    hslCsvDoc ∈ [hslCsvDoc] ∧
    String.intercalate "," (csvRow hslCsvDoc) ∈ (export_csv_lines [hslCsvDoc]).tail :=
  ⟨List.mem_singleton_self _,
   (export_csv_lines_spec [hslCsvDoc]).2.2.2.2.2.1 hslCsvDoc (List.mem_singleton_self _)⟩

/-- Python `min(vals)` (a left fold) yields an element of the list. -/
lemma foldl_min_mem : ∀ (xs : List ℚ) (x : ℚ), xs.foldl min x ∈ x :: xs
  | [], x => List.mem_singleton_self x
  | y :: ys, x => by
    simp only [List.foldl_cons]
    have h := foldl_min_mem ys (min x y)
    rcases List.mem_cons.mp h with h2 | h2
    · rcases min_choice x y with h1 | h1
      · rw [h2, h1]; exact List.mem_cons_self _ _
      · rw [h2, h1]; exact List.mem_cons.mpr (Or.inr (List.mem_cons_self _ _))
    · exact List.mem_cons.mpr (Or.inr (List.mem_cons.mpr (Or.inr h2)))

/-- Python `min(vals)` is a lower bound of the list. -/
lemma foldl_min_le : ∀ (xs : List ℚ) (x v : ℚ), v ∈ x :: xs → xs.foldl min x ≤ v
  | [], x, v, hv => by
    simp only [List.mem_singleton] at hv
    simp [hv]
  | y :: ys, x, v, hv => by
    simp only [List.foldl_cons]
    have hmin : ys.foldl min (min x y) ≤ min x y :=
      foldl_min_le ys (min x y) (min x y) (List.mem_cons_self _ _)
    rcases List.mem_cons.mp hv with h1 | h1
    · calc ys.foldl min (min x y) ≤ min x y := hmin
        _ ≤ x := min_le_left _ _
        _ = v := h1.symm
    · rcases List.mem_cons.mp h1 with h2 | h2
      · calc ys.foldl min (min x y) ≤ min x y := hmin
          _ ≤ y := min_le_right _ _
          _ = v := h2.symm
      · exact foldl_min_le ys (min x y) v (List.mem_cons.mpr (Or.inr h2))

/-- Python `max(vals)` (a left fold) yields an element of the list. -/
lemma foldl_max_mem : ∀ (xs : List ℚ) (x : ℚ), xs.foldl max x ∈ x :: xs
  | [], x => List.mem_singleton_self x
  | y :: ys, x => by
    simp only [List.foldl_cons]
    have h := foldl_max_mem ys (max x y)
    rcases List.mem_cons.mp h with h2 | h2
    · rcases max_choice x y with h1 | h1
      · rw [h2, h1]; exact List.mem_cons_self _ _
      · rw [h2, h1]; exact List.mem_cons.mpr (Or.inr (List.mem_cons_self _ _))
    · exact List.mem_cons.mpr (Or.inr (List.mem_cons.mpr (Or.inr h2)))

/-- Python `max(vals)` is an upper bound of the list. -/
lemma foldl_le_max : ∀ (xs : List ℚ) (x v : ℚ), v ∈ x :: xs → v ≤ xs.foldl max x
  | [], x, v, hv => by
    simp only [List.mem_singleton] at hv
    simp [hv]
  | y :: ys, x, v, hv => by
    simp only [List.foldl_cons]
    have hmax : max x y ≤ ys.foldl max (max x y) :=
      foldl_le_max ys (max x y) (max x y) (List.mem_cons_self _ _)
    rcases List.mem_cons.mp hv with h1 | h1
    · calc v = x := h1
        _ ≤ max x y := le_max_left _ _
        _ ≤ ys.foldl max (max x y) := hmax
    · rcases List.mem_cons.mp h1 with h2 | h2
      · calc v = y := h2
          _ ≤ max x y := le_max_right _ _
          _ ≤ ys.foldl max (max x y) := hmax
      · exact foldl_le_max ys (max x y) v (List.mem_cons.mpr (Or.inr h2))

/-- Characterization of `agg`: all-`null` on an empty value list, else
`min` is a member and lower bound, `max` a member and upper bound, and
`avg` is `sum/len`. -/
lemma agg_spec (vals : List ℚ) :
    (vals = [] → agg vals = ⟨none, none, none⟩) ∧
    (∀ v vs, vals = v :: vs →
      ∃ m M A, agg vals = ⟨some m, some M, some A⟩ ∧
        m ∈ v :: vs ∧ (∀ w ∈ v :: vs, m ≤ w) ∧
        M ∈ v :: vs ∧ (∀ w ∈ v :: vs, w ≤ M) ∧
        A = (v :: vs).sum / ((v :: vs).length : ℚ)) := by
  constructor
  · intro h
    rw [h]
    rfl
  · intro v vs h
    rw [h]
    exact ⟨vs.foldl min v, vs.foldl max v, (v :: vs).sum / ((v :: vs).length : ℚ),
      rfl, foldl_min_mem vs v, fun w hw => foldl_min_le vs v w hw,
      foldl_max_mem vs v, fun w hw => foldl_le_max vs v w hw, rfl⟩

/-- C6: `metrics_summary` returns `{items: 0, summary: {}}` exactly when
the window holds no documents; otherwise `items` counts the window and,
independently for each of the six tracked fields, the summary aggregates
exactly the parseable values of that field: no parseable values yield
`{min: null, max: null, avg: null}` (other fields unaffected), and
otherwise `min`/`max` are a member lower/upper bound of the parseable
values and `avg` their sum over their count. -/
theorem metrics_summary_spec (docs : List MetricDoc) (now minutes : ℤ) :
    (docs.filter (fun d => decide (now - 60 * minutes ≤ d.created_at)) = [] →
      metrics_summary docs now minutes = ⟨0, none⟩) ∧
    (docs.filter (fun d => decide (now - 60 * minutes ≤ d.created_at)) ≠ [] →
      (metrics_summary docs now minutes).items =
        (docs.filter (fun d => decide (now - 60 * minutes ≤ d.created_at))).length ∧
      ∃ s, (metrics_summary docs now minutes).summary = some s ∧
        ∀ f : MetricField,
          summaryStats s f =
            agg ((docs.filter (fun d => decide (now - 60 * minutes ≤ d.created_at))).filterMap
              (getMetric f)) ∧
          ((docs.filter (fun d => decide (now - 60 * minutes ≤ d.created_at))).filterMap
              (getMetric f) = [] →
            summaryStats s f = ⟨none, none, none⟩) ∧
          (∀ v vs,
            (docs.filter (fun d => decide (now - 60 * minutes ≤ d.created_at))).filterMap
              (getMetric f) = v :: vs →
            ∃ m M A, summaryStats s f = ⟨some m, some M, some A⟩ ∧
              m ∈ v :: vs ∧ (∀ w ∈ v :: vs, m ≤ w) ∧
              M ∈ v :: vs ∧ (∀ w ∈ v :: vs, w ≤ M) ∧
              A = (v :: vs).sum / ((v :: vs).length : ℚ))) := by
  constructor
  · intro h
    simp only [metrics_summary]
    rw [h]
    rfl
  · intro h
    have hne : (docs.filter (fun d => decide (now - 60 * minutes ≤ d.created_at))).isEmpty
        = false := by
      cases he : (docs.filter (fun d => decide (now - 60 * minutes ≤ d.created_at))).isEmpty
      · rfl
      · exact absurd (List.isEmpty_iff.mp he) h
    simp only [metrics_summary]
    rw [if_neg (by rw [hne]; exact Bool.false_ne_true)]
    refine ⟨rfl, _, rfl, fun f => ?_⟩
    have hagg := agg_spec ((docs.filter
      (fun d => decide (now - 60 * minutes ≤ d.created_at))).filterMap (getMetric f))
    refine ⟨?_, ?_, ?_⟩
    · cases f <;> rfl
    · intro h0
      cases f <;> exact hagg.1 h0
    · intro v vs h0
      cases f <;> exact hagg.2 v vs h0

/-- Witness for C6 at a one-document window whose only parseable field is
`ambient_temp_c`. -/
theorem metrics_summary_spec_witness :
    ([(⟨some 1, none, none, none, none, none, 0⟩ : MetricDoc)].filter
      (fun d => decide ((0 : ℤ) - 60 * 1 ≤ d.created_at)) ≠ []) ∧
    (metrics_summary [⟨some 1, none, none, none, none, none, 0⟩] 0 1).items = 1 := by
  have h := (metrics_summary_spec [⟨some 1, none, none, none, none, none, 0⟩] 0 1).2
    (by decide)
  exact ⟨by decide, by rw [h.1]; decide⟩

/-- C10: `metrics_summary` reads the whole window with no cap: `items`
equals the number of stored documents inside the window, however many
there are — unlike the `limit` parameters bounding `telemetry_history`
(5000) and `export_csv` (20000), no limit is applied. -/
theorem metrics_summary_no_cap (docs : List MetricDoc) (now minutes : ℤ) :
    (metrics_summary docs now minutes).items =
      (docs.filter (fun d => decide (now - 60 * minutes ≤ d.created_at))).length ∧
    (∀ (n : ℕ) (d : MetricDoc), now - 60 * minutes ≤ d.created_at →
      (metrics_summary (List.replicate n d) now minutes).items = n) := by
  have hmain : ∀ (l : List MetricDoc),
      (metrics_summary l now minutes).items =
        (l.filter (fun d => decide (now - 60 * minutes ≤ d.created_at))).length := by
    intro l
    simp only [metrics_summary]
    by_cases hl : (l.filter (fun d => decide (now - 60 * minutes ≤ d.created_at))).isEmpty
    · rw [if_pos hl, List.isEmpty_iff.mp hl]
      rfl
    · rw [if_neg hl]
  refine ⟨hmain docs, fun n d hd => ?_⟩
  rw [hmain (List.replicate n d)]
  have hrep : (List.replicate n d).filter
      (fun d => decide (now - 60 * minutes ≤ d.created_at)) = List.replicate n d := by
    induction n with
    | zero => rfl
    | succ k ih =>
      rw [List.replicate_succ, List.filter_cons, if_pos (decide_eq_true hd), ih]
  rw [hrep, List.length_replicate]

/-- Witness for C10: a window of 20001 documents — beyond the export cap —
is counted in full. -/
theorem metrics_summary_no_cap_witness :
    ((0 : ℤ) - 60 * 1 ≤ (⟨none, none, none, none, none, none, 0⟩ : MetricDoc).created_at) ∧
    (metrics_summary
      (List.replicate 20001 (⟨none, none, none, none, none, none, 0⟩ : MetricDoc))
      0 1).items = 20001 :=
  ⟨by decide,
   (metrics_summary_no_cap [] 0 1).2 20001 ⟨none, none, none, none, none, none, 0⟩ (by decide)⟩

end TofyX1
